import Mathlib

set_option maxRecDepth 20000

/-!
Shallow embedding of `src/scrapper.py` (the otomoto listing scraper).

The embedding models, faithfully to the source:
  * `fetch_html`            — the retrying fetch client (lines 98-120), over an
                              oracle `server : Nat → Response` giving the response
                              of each attempt, and recording the sleeps performed;
  * `Car` / `mkCar`         — the `Car` dataclass with its `__post_init__`
                              defaulting (lines 35-91).  Fields that the dataclass
                              declares as `Optional[...]` and that `__post_init__`
                              defaults become plain `String`/`Nat` after
                              construction; the fields `make`, `model`,
                              `fuel_type`, `mileage_km`, `engine_capacity`, which
                              callers may set to `None` but which `__post_init__`
                              does not touch, stay `Option String`;
  * `buildCar` / `fetch_car_details`
                            — the detail-record builder (lines 134-297) over an
                              abstract parsed document `Doc` (the site-adapter
                              view of the page: the query results the builder
                              consumes) plus the Playwright VIN result.  Python
                              exceptions are `Except.error`; the enclosing
                              `try/except` of `fetch_car_details` maps them to
                              `none`;
  * `priceRangeOf`          — the price-range estimation (lines 241-250),
                              including a model of IEEE-754 binary64 arithmetic
                              (`roundDouble`) because the source computes
                              `int(price * 0.85)` etc. with Python floats;
  * `processChunks`         — the chunked batch scheduler of `scrape`
                              (lines 380-391);
  * `transform_car_to_schema` — the schema transformer (lines 394-437);
  * `attemptBody` / `extract_vin_with_playwright`
                            — the control flow of the Playwright VIN extractor
                              (lines 299-362) over an oracle of step outcomes,
                              recording session open/teardown events.
-/

/-- Python truthiness for an optional string: `None` and `""` are falsy. -/
def pyTruthy : Option String → Bool
  | none => false
  | some s => !s.isEmpty

/-- Python `a or b` on optional strings (used for the per-field fallbacks). -/
def pyOr (a b : Option String) : Option String :=
  if pyTruthy a then a else b

/-- Python `x if x else None`: normalises a falsy value to `None`. -/
def pyNorm (a : Option String) : Option String :=
  if pyTruthy a then a else none

/-- Python truthiness of an optional int: `None` and `0` are falsy. -/
def natOptTruthy : Option Nat → Bool
  | none => false
  | some n => n != 0

/-- Python `a or b` on plain strings ("" is falsy). -/
def pyStrOr (a b : String) : String :=
  if a.isEmpty then b else a

/-- Python `pat in s` (substring test), via `splitOn`. -/
def strContains (s pat : String) : Bool :=
  (s.splitOn pat).length ≥ 2

/-- Numeric value of a digit list (what Python `int` does to a digit string). -/
def digitsToNat (cs : List Char) : Nat :=
  cs.foldl (fun n c => 10 * n + (c.toNat - 48)) 0

/-- The digit characters of a string, in order: `re.sub(r'\D', '', s)`. -/
def digitsOf (s : String) : List Char :=
  s.toList.filter Char.isDigit

/-- First maximal digit run of a string as a number: `re.search(r'\d+', s)`
followed by `int(...)`; `none` when the string has no digit. -/
def firstDigitRun (s : String) : Option Nat :=
  let run := (s.toList.dropWhile (fun c => !c.isDigit)).takeWhile Char.isDigit
  if run.isEmpty then none else some (digitsToNat run)

/-- First window of four consecutive digits: `re.search(r'\d{4}', s)` followed
by `int(...)`; `none` when no four consecutive digits occur. -/
def firstFourDigits : List Char → Option Nat
  | a :: b :: c :: d :: rest =>
    if a.isDigit && b.isDigit && c.isDigit && d.isDigit then
      some (digitsToNat [a, b, c, d])
    else
      firstFourDigits (b :: c :: d :: rest)
  | _ => none

/-- A word character in the sense of the regex `\w` (ASCII range). -/
def isWordChar (c : Char) : Bool :=
  c.isAlphanum || c == '_'

/-- A whitespace character as stripped by Python `str.strip()` (ASCII
range). -/
def isSpaceChar (c : Char) : Bool :=
  c == ' ' || c == '\t' || c == '\n' || c == '\r'

/-- Python `str.strip()`: drop leading and trailing whitespace.  (List
based so that the kernel can evaluate it, unlike `String.trim`.) -/
def strTrim (s : String) : String :=
  String.mk (((s.toList.dropWhile isSpaceChar).reverse.dropWhile isSpaceChar).reverse)

/-- Lower-case an ASCII letter. -/
def asciiLower (c : Char) : Char :=
  if 'A' ≤ c ∧ c ≤ 'Z' then Char.ofNat (c.toNat + 32) else c

/-- Python `str.lower()` on the ASCII range (every string compared against
here is ASCII).  (List based so that the kernel can evaluate it.) -/
def strLower (s : String) : String :=
  String.mk (s.toList.map asciiLower)

/- ----------------------------------------------------------------
   Fetch client (`fetch_html`, lines 98-120)
   ---------------------------------------------------------------- -/

/-- Outcome of one HTTP request: a status with a body, or a raised
transport error (the `except Exception` branch). -/
inductive Response where
  | status : Nat → String → Response
  | transportError : Response
deriving DecidableEq

/-- Whether a response is the success the fetch loop returns on. -/
def isSuccess : Response → Bool
  | .status 200 _ => true
  | _ => false

/-- A sleep performed by the fetch loop: the flat 5-second cooldown of the
403 branch (line 108) or the `delay`-second wait of the other failure
branches (lines 113 and 119). -/
inductive Wait where
  | blocked : Nat → Wait
  | backoff : Nat → Wait
deriving DecidableEq

/-- The `for attempt in range(retries)` loop of `fetch_html`: `attempt` is the
current index, `rem` the remaining iterations, `server attempt` the
response the attempt receives.  Returns the fetched text ("" after
exhaustion, line 120) and the list of sleeps performed, in order. -/
def fetchAux (server : Nat → Response) (retries delay : Nat) : Nat → Nat → String × List Wait
  | _, 0 => ("", [])
  | attempt, rem + 1 =>
    match server attempt with
    | .transportError =>
      let r := fetchAux server retries delay (attempt + 1) rem
      (r.1, (if attempt + 1 < retries then [Wait.backoff delay] else []) ++ r.2)
    | .status code body =>
      if code = 403 then
        let r := fetchAux server retries delay (attempt + 1) rem
        (r.1, Wait.blocked 5 :: r.2)
      else if code ≠ 200 then
        let r := fetchAux server retries delay (attempt + 1) rem
        (r.1, (if attempt + 1 < retries then [Wait.backoff delay] else []) ++ r.2)
      else
        (body, [])

/-- `fetch_html(session, url, retries, delay)` over a response oracle.  The
source defaults are `retries = 2`, `delay = 1`. -/
def fetch_html (server : Nat → Response) (retries delay : Nat) : String × List Wait :=
  fetchAux server retries delay 0 retries

/-- A server that answers 403 to the first `k` requests and 200 with `body`
afterwards. -/
def server403 (k : Nat) (body : String) : Nat → Response :=
  fun i => if i < k then Response.status 403 "blocked" else Response.status 200 body

/- ----------------------------------------------------------------
   Parsed-document model (the site-adapter view of a detail page)
   ---------------------------------------------------------------- -/

/-- The query results `fetch_car_details` extracts from the parsed page.
Each field is exactly what one of the BeautifulSoup lookups of
lines 139-232 would return on the page; an empty page (e.g. after a
failed fetch) has every field absent/empty. -/
structure Doc where
  /-- text of the first `h1`, if any (line 139) -/
  h1 : Option String
  /-- the `content-description-section` div with the texts of its `p`
  elements, if the div is present (lines 142-145) -/
  descSection : Option (List String)
  /-- text of `span.offer-price__number` or `.offer-price` (lines 147, 232) -/
  priceText : Option String
  /-- the `div[data-testid=...]` blocks in document order: identifying
  attribute and the texts of the `p` elements inside (lines 151-159) -/
  testidBlocks : List (String × List String)
  /-- the `advert-vin` div with the texts of its `p` elements, if present
  (lines 256-260) -/
  advertVinPs : Option (List String)
  /-- texts of the `p.ooa-11fwepm` detail labels, in order (line 186) -/
  detailLabels : List String
  /-- the `offer-params__item` divs: label span text and value div text,
  either possibly missing (lines 198-203) -/
  legacyItems : List (Option String × Option String)
  /-- the first `p` whose `data-testid` matches `price-indicator-label-.*`:
  its `data-testid` attribute and its text (lines 222-228) -/
  priceIndicatorTag : Option (String × String)
deriving DecidableEq

/-- The parse of an empty or fetch-failed page. -/
def emptyDoc : Doc :=
  { h1 := none, descSection := none, priceText := none, testidBlocks := [],
    advertVinPs := none, detailLabels := [], legacyItems := [],
    priceIndicatorTag := none }

/-- The block `soup.find("div", {"data-testid": testid})` would find: the
first block with the given identifying attribute, as its `p` texts. -/
def findTestidBlock (doc : Doc) (testid : String) : Option (List String) :=
  (doc.testidBlocks.find? (fun b => b.1 = testid)).map (fun b => b.2)

/-- `extract_data_testid_value` (lines 151-159): the last `p` text of the
block, trimmed — but only when the block holds at least two `p`
elements; `None` otherwise. -/
def extract_data_testid_value (doc : Doc) (testid : String) : Option String :=
  match findTestidBlock doc testid with
  | some ps => if 2 ≤ ps.length then ps.getLast?.map strTrim else none
  | none => none

/-- The legacy `offer-params` dict entries (lines 198-203): items with both
label and value present, key = trimmed lower-cased label, value trimmed. -/
def legacyPairs (items : List (Option String × Option String)) : List (String × String) :=
  items.filterMap (fun it =>
    match it with
    | (some l, some v) => some (strLower (strTrim l), strTrim v)
    | _ => none)

/-- `details.get(key)`: Python dict insertion overwrites, so the value of the
last item carrying the key wins. -/
def legacyGet (pairs : List (String × String)) (key : String) : Option String :=
  ((pairs.filter (fun p => p.1 = key)).getLast?).map (fun p => p.2)

/-- The detail-label classification loop (lines 186-195): returns
(fuel_type, mileage, engine_capacity); later labels overwrite earlier
ones, mirroring the loop's reassignment. -/
def classifyLabels (labels : List String) : Option String × Option String × Option String :=
  labels.foldl
    (fun acc t0 =>
      let t := strTrim t0
      let fuel := acc.1
      let mil := acc.2.1
      let cap := acc.2.2
      if strContains t "km" then (fuel, some t, cap)
      else if strContains t "cm3" then (fuel, mil, some t)
      else if strLower t ∈ ["benzyna", "diesel", "hybryda", "elektryczny", "lpg", "cng"] then
        (some t, mil, cap)
      else (fuel, mil, cap))
    (none, none, none)

/-- Line 148: `int(re.sub(r'\D', '', price_tag.text)) if price_tag else 0`.
Python `int("")` raises `ValueError`, which is NOT caught before the
enclosing `try` of `fetch_car_details`. -/
def parsePricePln (doc : Doc) : Except String Nat :=
  match doc.priceText with
  | none => Except.ok 0
  | some t =>
    let ds := digitsOf t
    if ds.isEmpty then Except.error "ValueError" else Except.ok (digitsToNat ds)

/-- Lines 205: `details.get("rok produkcji") or extract_data_testid_value("year")`. -/
def yearTextOf (doc : Doc) : Option String :=
  pyOr (legacyGet (legacyPairs doc.legacyItems) "rok produkcji")
    (extract_data_testid_value doc "year")

/-- Line 206: first four-digit window of the year text, else 0. -/
def yearOf (doc : Doc) : Nat :=
  match yearTextOf doc with
  | some t => if t.isEmpty then 0 else (firstFourDigits t.toList).getD 0
  | none => 0

/-- Lines 178-184: engine power from the `engine_power` testid block. -/
def engPowerPrimary (doc : Doc) : Option Nat :=
  match extract_data_testid_value doc "engine_power" with
  | some t => if t.isEmpty then none else firstDigitRun t
  | none => none

/-- Lines 208-211: fall back to the legacy `moc` entry when the primary
engine power is falsy (None or 0). -/
def engPowerOf (doc : Doc) : Option Nat :=
  let ep := engPowerPrimary doc
  if natOptTruthy ep then ep
  else
    match legacyGet (legacyPairs doc.legacyItems) "moc" with
    | some m =>
      if m.isEmpty then ep
      else
        match firstDigitRun m with
        | some n => some n
        | none => ep
    | none => ep

/-- Line 229: `re.search(r'price-indicator-label-(\w+)', data_testid)` — the
first occurrence of the literal prefix followed by a nonempty word-char
run yields that run. -/
def indicatorTypeOf (attr : String) : Option String :=
  match attr.splitOn "price-indicator-label-" with
  | [] => none
  | _ :: rest =>
    ((rest.map (fun s => s.toList.takeWhile isWordChar)).find? (fun run => !run.isEmpty)).map
      (fun run => String.mk run)

/- ----------------------------------------------------------------
   IEEE-754 binary64 model for the price-range arithmetic
   ---------------------------------------------------------------- -/

/-- An exact fraction with a positive denominator, kept unnormalised so
that every operation is kernel-computable (no gcd).  All constructors
below only ever build positive denominators. -/
structure Frac where
  num : Int
  den : Int
deriving DecidableEq

/-- The fraction `n / 1` of a natural number. -/
def fracOfNat (n : Nat) : Frac :=
  ⟨(n : Int), 1⟩

/-- Exact product of fractions. -/
def fMul (a b : Frac) : Frac :=
  ⟨a.num * b.num, a.den * b.den⟩

/-- Exact difference of fractions. -/
def fSub (a b : Frac) : Frac :=
  ⟨a.num * b.den - b.num * a.den, a.den * b.den⟩

/-- `a < b`, valid because denominators are positive. -/
def fLt (a b : Frac) : Bool :=
  a.num * b.den < b.num * a.den

/-- `a ≤ b`, valid because denominators are positive. -/
def fLe (a b : Frac) : Bool :=
  a.num * b.den ≤ b.num * a.den

/-- Mathematical floor of a fraction (denominator positive). -/
def fFloor (a : Frac) : Int :=
  a.num.fdiv a.den

/-- `2 ^ e` as a fraction, for an integer exponent. -/
def pow2 (e : Int) : Frac :=
  if 0 ≤ e then ⟨((2 ^ e.toNat : Nat) : Int), 1⟩ else ⟨1, ((2 ^ (-e).toNat : Nat) : Int)⟩

/-- Nearest integer with ties to even (the IEEE rounding of a scaled
significand). -/
def rheInt (q : Frac) : Int :=
  let n := fFloor q
  let f := fSub q ⟨n, 1⟩
  if fLt f ⟨1, 2⟩ then n
  else if fLt ⟨1, 2⟩ f then n + 1
  else if n % 2 = 0 then n else n + 1

/-- Binary exponent of a positive fraction (fuelled normalisation into
`[1, 2)`); fuel 400 covers every magnitude arising here. -/
def floatExpGo : Nat → Frac → Int → Int
  | 0, _, e => e
  | fuel + 1, q, e =>
    if fLt q ⟨1, 1⟩ then floatExpGo fuel (fMul q ⟨2, 1⟩) (e - 1)
    else if fLe ⟨2, 1⟩ q then floatExpGo fuel (fMul q ⟨1, 2⟩) (e + 1)
    else e

/-- Largest `e` with `2 ^ e ≤ q`, for positive `q` of moderate magnitude. -/
def floatExp (q : Frac) : Int :=
  floatExpGo 400 q 0

/-- Round a positive fraction to the nearest IEEE-754 binary64 value
(round-to-nearest, ties-to-even, on the 53-bit significand grid; exact
for the normal, non-overflowing magnitudes used here).  This is what
Python does to the literals `0.85`, `0.9`, `1.1`, `1.15`, to
`float(price)`, and to each float multiplication result. -/
def roundDouble (q : Frac) : Frac :=
  if fLe q ⟨0, 1⟩ then ⟨0, 1⟩
  else
    let e := floatExp q
    fMul ⟨rheInt (fMul q (pow2 (52 - e))), 1⟩ (pow2 (e - 52))

/-- IEEE binary64 multiplication: round the exact product. -/
def fmul (a b : Frac) : Frac :=
  roundDouble (fMul a b)

/-- Python `int(...)` on a float value: truncation toward zero. -/
def pyInt (q : Frac) : Int :=
  if fLt q ⟨0, 1⟩ then -(fFloor ⟨-q.num, q.den⟩) else fFloor q

/-- The binary64 value of a decimal literal `a / b` (e.g. `0.85` is
`dblLit 85 100`). -/
def dblLit (a b : Nat) : Frac :=
  roundDouble ⟨(a : Int), (b : Int)⟩

/-- Lines 241-250: the estimated price range string for a given indicator
type and parsed price.  `price * 0.85` etc. are Python float products of
`float(price)` with the binary64 value of the literal. -/
def priceRangeOf (indicatorType : String) (price : Nat) : Option String :=
  if indicatorType = "ABOVE" then
    let lower := pyInt (fmul (roundDouble (fracOfNat price)) (dblLit 85 100))
    some (toString lower ++ "-" ++ toString price ++ " PLN")
  else if indicatorType = "BELOW" then
    let upper := pyInt (fmul (roundDouble (fracOfNat price)) (dblLit 115 100))
    some (toString price ++ "-" ++ toString upper ++ " PLN")
  else if indicatorType = "IN" then
    let lower := pyInt (fmul (roundDouble (fracOfNat price)) (dblLit 9 10))
    let upper := pyInt (fmul (roundDouble (fracOfNat price)) (dblLit 11 10))
    some (toString lower ++ "-" ++ toString upper ++ " PLN")
  else none

/-- Lines 218-252: the `price_range` field — requires both the indicator tag
and the price tag; a `ValueError` from the price parse is caught locally
(lines 251-252) and leaves the range absent. -/
def priceRangeField (doc : Doc) : Option String :=
  match doc.priceIndicatorTag, doc.priceText with
  | some tag, some pt =>
    match indicatorTypeOf tag.1 with
    | some ityp =>
      let ds := digitsOf pt
      if ds.isEmpty then none else priceRangeOf ityp (digitsToNat ds)
    | none => none
  | _, _ => none

/- ----------------------------------------------------------------
   VIN resolution chain (lines 214 and 255-266)
   ---------------------------------------------------------------- -/

/-- Lines 255-260: when the current VIN is falsy, take the trimmed text of
the first `p` inside the `advert-vin` div, if both exist. -/
def vinStep2 (vin : Option String) (doc : Doc) : Option String :=
  if pyTruthy vin then vin
  else
    match doc.advertVinPs with
    | some ps =>
      match ps.head? with
      | some p => some (strTrim p)
      | none => vin
    | none => vin

/-- Lines 262-263: when still falsy, reassign from the generic keyed lookup
(possibly back to `None`). -/
def vinStep3 (vin : Option String) (doc : Doc) : Option String :=
  if pyTruthy vin then vin else extract_data_testid_value doc "vin"

/-- Lines 265-266: when still falsy and the legacy table has a truthy `vin`
entry, take it. -/
def vinStep4 (vin : Option String) (doc : Doc) : Option String :=
  if pyTruthy vin then vin
  else
    match legacyGet (legacyPairs doc.legacyItems) "vin" with
    | some v => if v.isEmpty then vin else some v
    | none => vin

/-- The full VIN chain: the Playwright result (line 214) then the three
static fallbacks. -/
def resolveVin (pw : Option String) (doc : Doc) : Option String :=
  vinStep4 (vinStep3 (vinStep2 pw doc) doc) doc

/- ----------------------------------------------------------------
   The Car record (lines 35-91)
   ---------------------------------------------------------------- -/

/-- The constructor arguments of the `Car` dataclass, exactly as
`fetch_car_details` supplies them: every field a caller may pass `None`
for is an `Option`. -/
structure CarArgs where
  link : String
  full_name : String
  description : String
  year : Nat
  mileage_km : Option String
  engine_capacity : Option String
  fuel_type : Option String
  price_pln : Nat
  make : Option String
  model : Option String
  door_count : Option String
  vin : Option String
  body_type : Option String
  color : Option String
  gearbox : Option String
  engine_power : Option Nat
  date_registration : Option String
  transmission : Option String
  price_indicator : Option String
  price_range : Option String
  no_accident : Option String
  country_origin : Option String
  new_used : Option String
  registration_date_history : Option String
deriving DecidableEq

/-- A constructed `Car` after `__post_init__` ran: the declared-optional
fields are defaulted to `"unknown"` / `0` / `"used"`, while `make`,
`model`, `fuel_type`, `mileage_km`, `engine_capacity` keep whatever
(possibly `None`) value the caller passed — `__post_init__` does not
mention them. -/
structure Car where
  link : String
  full_name : String
  description : String
  year : Nat
  mileage_km : Option String
  engine_capacity : Option String
  fuel_type : Option String
  price_pln : Nat
  make : Option String
  model : Option String
  door_count : String
  vin : String
  body_type : String
  color : String
  gearbox : String
  engine_power : Nat
  date_registration : String
  transmission : String
  price_indicator : String
  price_range : String
  no_accident : String
  country_origin : String
  new_used : String
  registration_date_history : String
deriving DecidableEq

/-- `Car.__init__` followed by `Car.__post_init__` (lines 62-91). -/
def mkCar (a : CarArgs) : Car :=
  { link := a.link
    full_name := a.full_name
    description := a.description
    year := a.year
    mileage_km := a.mileage_km
    engine_capacity := a.engine_capacity
    fuel_type := a.fuel_type
    price_pln := a.price_pln
    make := a.make
    model := a.model
    door_count := a.door_count.getD "unknown"
    vin := a.vin.getD "unknown"
    body_type := a.body_type.getD "unknown"
    color := a.color.getD "unknown"
    gearbox := a.gearbox.getD "unknown"
    engine_power := a.engine_power.getD 0
    date_registration := a.date_registration.getD "unknown"
    transmission := a.transmission.getD "unknown"
    price_indicator := a.price_indicator.getD "unknown"
    price_range := a.price_range.getD "unknown"
    no_accident := a.no_accident.getD "unknown"
    country_origin := a.country_origin.getD "unknown"
    new_used := a.new_used.getD "used"
    registration_date_history := a.registration_date_history.getD "unknown" }

/- ----------------------------------------------------------------
   Detail record builder (lines 134-297)
   ---------------------------------------------------------------- -/

/-- The infallible part of the `fetch_car_details` body: the record built
from the parsed document, the Playwright VIN result and the already
parsed price (the price parse of line 148 is the body's only
exception source and is factored into `buildCar`). -/
def carFields (url : String) (doc : Doc) (pwVin : Option String) (price_pln : Nat) : Car :=
  let full_name := (doc.h1.map strTrim).getD "unknown"
    let description :=
      match doc.descSection with
      | some ps => String.intercalate "\n" (ps.map strTrim)
      | none => ""
    let make := extract_data_testid_value doc "make"
    let model := extract_data_testid_value doc "model"
    let door_count := extract_data_testid_value doc "door_count"
    let body_type := extract_data_testid_value doc "body_type"
    let color := extract_data_testid_value doc "color"
    let gearbox := extract_data_testid_value doc "gearbox"
    let date_registration := extract_data_testid_value doc "first_registration"
    let no_accident := extract_data_testid_value doc "no_accident"
    let transmission := extract_data_testid_value doc "transmission"
    let country_origin := extract_data_testid_value doc "country_origin"
    let new_used_status := extract_data_testid_value doc "new_used"
    let registration_date_history := extract_data_testid_value doc "date_registration"
    let fmc := classifyLabels doc.detailLabels
    let fuel_type := fmc.1
    let mileage := fmc.2.1
    let engine_capacity := fmc.2.2
    let details := legacyPairs doc.legacyItems
    let price_indicator := doc.priceIndicatorTag.map (fun tag => strTrim tag.2)
    mkCar
      { link := url
        full_name := full_name
        description := description
        year := yearOf doc
        mileage_km := pyNorm mileage
        engine_capacity := pyNorm engine_capacity
        fuel_type := pyNorm fuel_type
        price_pln := price_pln
        make := make
        model := model
        door_count := pyOr door_count (legacyGet details "liczba drzwi")
        vin := resolveVin pwVin doc
        body_type := pyOr body_type (legacyGet details "nadwozie")
        color := pyOr color (legacyGet details "kolor")
        gearbox := pyOr gearbox (legacyGet details "skrzynia biegów")
        engine_power := engPowerOf doc
        date_registration := pyOr date_registration (legacyGet details "pierwsza rejestracja")
        transmission := pyOr transmission (legacyGet details "napęd")
        price_indicator := price_indicator
        price_range := priceRangeField doc
        no_accident := no_accident
        country_origin := country_origin
        new_used := new_used_status
        registration_date_history := registration_date_history }

/-- The body of `fetch_car_details` (the code inside its `try`): the price
parse of line 148 may raise; everything else is `carFields`.  An uncaught
Python exception is `Except.error`. -/
def buildCar (url : String) (doc : Doc) (pwVin : Option String) : Except String Car :=
  match parsePricePln doc with
  | Except.error e => Except.error e
  | Except.ok price_pln => Except.ok (carFields url doc pwVin price_pln)

/-- `fetch_car_details` (lines 134-297): the enclosing `try/except` converts
any exception of the body to `None`. -/
def fetch_car_details (url : String) (doc : Doc) (pwVin : Option String) : Option Car :=
  match buildCar url doc pwVin with
  | Except.ok c => some c
  | Except.error _ => none

/- ----------------------------------------------------------------
   Batch scheduler (`scrape`, lines 380-391)
   ---------------------------------------------------------------- -/

/-- The chunks `all_links[i:i+8]` for `i = 0, 8, 16, ...` (chunk_size = 8).
Fuelled structural recursion; `chunks8` instantiates fuel = length. -/
def chunks8Go : Nat → List α → List (List α)
  | _, [] => []
  | 0, _ :: _ => []
  | fuel + 1, x :: xs => (x :: xs.take 7) :: chunks8Go fuel (xs.drop 7)

/-- The chunk decomposition of the link list, chunk size 8. -/
def chunks8 (l : List α) : List (List α) :=
  chunks8Go l.length l

/-- The scheduling loop of `scrape` (lines 383-390) over the per-link task
result `f`: per chunk, gather the results in order, keep the non-`None`
ones, and sleep once iff links remain after the chunk.  Returns the
accumulated records and the number of inter-chunk sleeps. -/
def processChunksGo (f : α → Option β) : Nat → List α → List β × Nat
  | _, [] => ([], 0)
  | 0, _ :: _ => ([], 0)
  | fuel + 1, x :: xs =>
    let chunk := x :: xs.take 7
    let rest := xs.drop 7
    let nxt := processChunksGo f fuel rest
    (chunk.filterMap f ++ nxt.1, (if rest.isEmpty then 0 else 1) + nxt.2)

/-- The batch scheduler over the full ordered link sequence. -/
def processChunks (f : α → Option β) (links : List α) : List β × Nat :=
  processChunksGo f links.length links

/- ----------------------------------------------------------------
   Schema transformer (lines 394-437)
   ---------------------------------------------------------------- -/

/-- The output mapping of `transform_car_to_schema`, with the nested price
dict flattened into its four constant-keyed entries. -/
structure Schema where
  door_count : String
  vin : String
  make : String
  model : String
  is_imported_car : Nat
  fuel_type : String
  no_accident : Nat
  body_type : String
  mileage : String
  color : String
  year : String
  priceLabel : String
  priceValue : String
  currency : String
  grossNet : String
  engine_capacity : String
  engine_power : Nat
  gearbox : String
  transmission : String
  antilock_brake_system : Option Nat
  apple_carplay : Option Nat
  metallic : Option Nat
  country_origin : String
  date_registration : String
  has_registration : Nat
  cepik_authorization : Nat
  title : String
  description : String
  new_used : String
  category_id : Nat
  url : String
  price_indicator : String
  price_range : String
deriving DecidableEq

/-- `transform_car_to_schema` (lines 394-437). -/
def transform_car_to_schema (car : Car) : Schema :=
  { door_count := car.door_count
    vin := car.vin
    make :=
      match car.make with
      | some s => if s.isEmpty then "" else strLower s
      | none => ""
    model :=
      match car.model with
      | some s => if s.isEmpty then "" else strLower s
      | none => ""
    is_imported_car := 0
    fuel_type :=
      match car.fuel_type with
      | some s => if s.isEmpty then "" else strLower s
      | none => ""
    no_accident :=
      if car.no_accident ≠ "" ∧ strLower car.no_accident = "tak" then 1 else 0
    body_type := car.body_type
    mileage :=
      match car.mileage_km with
      | some s => if s.isEmpty then "" else String.mk (digitsOf s)
      | none => ""
    color := car.color
    year := toString car.year
    priceLabel := "price"
    priceValue := toString car.price_pln
    currency := "PLN"
    grossNet := "gross"
    engine_capacity :=
      match car.engine_capacity with
      | some s => if s.isEmpty then "" else String.mk (digitsOf s)
      | none => ""
    engine_power := car.engine_power
    gearbox := car.gearbox
    transmission := car.transmission
    antilock_brake_system := none
    apple_carplay := none
    metallic := none
    country_origin :=
      if car.country_origin.isEmpty then "pl" else strLower car.country_origin
    date_registration := pyStrOr car.registration_date_history car.date_registration
    has_registration := 1
    cepik_authorization := 1
    title := car.full_name
    description := car.description
    new_used :=
      if car.new_used ≠ "" ∧ strLower car.new_used = "nowy" then "new" else "used"
    category_id := 29
    url := car.link
    price_indicator := car.price_indicator
    price_range := car.price_range }

/- ----------------------------------------------------------------
   Playwright VIN extractor control flow (lines 299-362)
   ---------------------------------------------------------------- -/

/-- Outcome of one awaited Playwright step: a value, or a raised exception. -/
inductive StepResult (α : Type) where
  | ok : α → StepResult α
  | exn : StepResult α
deriving DecidableEq

/-- The outcomes of the awaited steps of one extraction attempt, in program
order.  The cookie-consent block (lines 317-323) is omitted: every one of
its outcomes is swallowed by its own `except Exception: pass` and leaves
no observable effect on the rest of the attempt. -/
structure PwOracle where
  /-- `p.chromium.launch` + `new_context` + `new_page` (lines 306-311) -/
  launch : StepResult Unit
  /-- `page.goto` (line 314) -/
  goto : StepResult Unit
  /-- `vin_element.count()` for the directly visible VIN (line 327) -/
  directCount : StepResult Nat
  /-- `vin_element.text_content()` (line 328) -/
  directText : StepResult String
  /-- `vin_button.count()` (line 334) -/
  buttonCount : StepResult Nat
  /-- `page.evaluate(...)` JS click (line 336) -/
  evalClick : StepResult Unit
  /-- `page.wait_for_selector` (line 344, inside the inner `try`) -/
  waitSel : StepResult Unit
  /-- `vin_element.count()` after the click (line 346, inside the inner `try`) -/
  afterCount : StepResult Nat
  /-- `vin_element.text_content()` after the click (line 347, inside the inner `try`) -/
  afterText : StepResult String
deriving DecidableEq

/-- Session lifecycle events of an attempt. -/
inductive PwEvent where
  /-- browser launched (a browsing session is now open) -/
  | openSession
  /-- explicit `browser.close()` (lines 329, 348, 354) -/
  | closeBrowser
  /-- exit of the `async with async_playwright()` scope: stops the driver,
  which closes every browser still open under it -/
  | stopPlaywright
deriving DecidableEq

/-- A normal exit of the attempt body: the explicit `browser.close()`
preceded every `return` of the `async with` block. -/
def exitClosed (r : Option String) : Except Unit (Option String) × List PwEvent :=
  (Except.ok r, [PwEvent.openSession, PwEvent.closeBrowser])

/-- An exception escaping the attempt body after the browser was opened:
no explicit `browser.close()` runs on this path. -/
def exitRaisedOpen : Except Unit (Option String) × List PwEvent :=
  (Except.error (), [PwEvent.openSession])

/-- An exception raised before any browser was opened. -/
def exitRaisedUnopened : Except Unit (Option String) × List PwEvent :=
  (Except.error (), [])

/-- The body of one attempt of `extract_vin_with_playwright`
(lines 304-355): the code inside `async with async_playwright() as p`,
before the scope exit runs. -/
def attemptBody (o : PwOracle) : Except Unit (Option String) × List PwEvent :=
  match o.launch with
  | .exn => exitRaisedUnopened
  | .ok _ =>
    match o.goto with
    | .exn => exitRaisedOpen
    | .ok _ =>
      match o.directCount with
      | .exn => exitRaisedOpen
      | .ok dc =>
        if 0 < dc then
          match o.directText with
          | .exn => exitRaisedOpen
          | .ok s => exitClosed (some (strTrim s))
        else
          match o.buttonCount with
          | .exn => exitRaisedOpen
          | .ok bc =>
            if 0 < bc then
              match o.evalClick with
              | .exn => exitRaisedOpen
              | .ok _ =>
                match o.waitSel with
                | .exn => exitClosed none
                | .ok _ =>
                  match o.afterCount with
                  | .exn => exitClosed none
                  | .ok ac =>
                    if 0 < ac then
                      match o.afterText with
                      | .exn => exitClosed none
                      | .ok s => exitClosed (some (strTrim s))
                    else exitClosed none
            else exitClosed none

/-- One attempt including the `async with` scope exit, which runs on every
path (normal return or exception) and stops the Playwright driver. -/
def runAttempt (o : PwOracle) : Except Unit (Option String) × List PwEvent :=
  let b := attemptBody o
  (b.1, b.2 ++ [PwEvent.stopPlaywright])

/-- `extract_vin_with_playwright` (lines 299-362): up to `max_retries = 2`
extra attempts; a normal body completion returns its value, an exception
retries (or yields `None` after the last attempt). -/
def extract_vin_with_playwright (o1 o2 o3 : PwOracle) : Option String × List PwEvent :=
  match runAttempt o1 with
  | (Except.ok r, e1) => (r, e1)
  | (Except.error _, e1) =>
    match runAttempt o2 with
    | (Except.ok r, e2) => (r, e1 ++ e2)
    | (Except.error _, e2) =>
      match runAttempt o3 with
      | (Except.ok r, e3) => (r, e1 ++ (e2 ++ e3))
      | (Except.error _, e3) => (none, e1 ++ (e2 ++ e3))

/-- Number of sessions still open after an event trace: opens increment,
`browser.close()` decrements, the scope exit closes everything of its
instance. -/
def openStep (n : Nat) : PwEvent → Nat
  | PwEvent.openSession => n + 1
  | PwEvent.closeBrowser => n - 1
  | PwEvent.stopPlaywright => 0

/-- Sessions open after a whole trace. -/
def openAfter (evts : List PwEvent) : Nat :=
  evts.foldl openStep 0

/- ----------------------------------------------------------------
   Concrete documents used by witnesses and counterexamples
   ---------------------------------------------------------------- -/

/-- A page whose price element is present but carries no digit: line 148
then evaluates `int("")`, which raises `ValueError`. -/
def docBadPrice : Doc :=
  { emptyDoc with priceText := some "cena PLN" }

/-- A page with a `vin` testid block holding a single paragraph. -/
def docOneP : Doc :=
  { emptyDoc with testidBlocks := [("vin", ["ABC"])] }

/-- A page with a `make` testid block of label and value paragraphs. -/
def docTwoP : Doc :=
  { emptyDoc with testidBlocks := [("make", ["Marka", " BMW "])] }

/-- A page carrying a static `advert-vin` block. -/
def docAdvertVin : Doc :=
  { emptyDoc with advertVinPs := some ["STATICVIN1"] }

/- ----------------------------------------------------------------
   Fetch-client lemmas
   ---------------------------------------------------------------- -/

lemma fetchAux_server403_hit (k retries delay : Nat) (body : String) :
    ∀ rem a, a ≤ k → k - a < rem →
      fetchAux (server403 k body) retries delay a rem
        = (body, List.replicate (k - a) (Wait.blocked 5)) := by
  intro rem
  induction rem with
  | zero => intro a _ h; omega
  | succ n ih =>
    intro a ha h
    by_cases hak : a < k
    · have hs : server403 k body a = Response.status 403 "blocked" := by
        simp [server403, hak]
      have hrec := ih (a + 1) (by omega) (by omega)
      have hka : k - a = (k - (a + 1)) + 1 := by omega
      simp [fetchAux, hs, hrec, hka, List.replicate_succ]
    · have hak2 : ¬a < k := hak
      have hs : server403 k body a = Response.status 200 body := by
        simp [server403, hak2]
      have hka : k - a = 0 := by omega
      simp [fetchAux, hs, hka]

lemma fetchAux_server403_miss (k retries delay : Nat) (body : String) :
    ∀ rem a, a + rem ≤ k →
      fetchAux (server403 k body) retries delay a rem
        = ("", List.replicate rem (Wait.blocked 5)) := by
  intro rem
  induction rem with
  | zero => intro a _; rfl
  | succ n ih =>
    intro a ha
    have hak : a < k := by omega
    have hs : server403 k body a = Response.status 403 "blocked" := by
      simp [server403, hak]
    have hrec := ih (a + 1) (by omega)
    simp [fetchAux, hs, hrec, List.replicate_succ]

lemma fetchAux_no_success (server : Nat → Response) (retries delay : Nat)
    (h : ∀ i, isSuccess (server i) = false) :
    ∀ rem a, (fetchAux server retries delay a rem).1 = "" := by
  intro rem
  induction rem with
  | zero => intro a; rfl
  | succ n ih =>
    intro a
    rcases hs : server a with ⟨code, body⟩ | _
    · have hcode : code ≠ 200 := by
        intro hc
        subst hc
        have hfalse := h a
        rw [hs] at hfalse
        simp [isSuccess] at hfalse
      by_cases h403 : code = 403
      · subst h403
        simp [fetchAux, hs, ih]
      · simp [fetchAux, hs, h403, hcode, ih]
    · simp [fetchAux, hs, ih]

/- ----------------------------------------------------------------
   C1
   ---------------------------------------------------------------- -/

/-- C1: failure isolation.  Any exception of the detail-record body is
caught by the enclosing handler and becomes `none` — it never propagates
to the batch; and the fetch client, when no attempt succeeds, returns the
empty result instead of raising. -/
theorem c1_failure_isolation :
    (∀ (url : String) (doc : Doc) (pwVin : Option String) (e : String),
        buildCar url doc pwVin = Except.error e →
          fetch_car_details url doc pwVin = none)
    ∧ (∀ (server : Nat → Response) (retries delay : Nat),
        (∀ i, isSuccess (server i) = false) →
          (fetch_html server retries delay).1 = "") := by
  constructor
  · intro url doc pwVin e h
    simp [fetch_car_details, h]
  · intro server retries delay h
    exact fetchAux_no_success server retries delay h retries 0

/-- Witness for C1 at concrete inputs: a digit-free price text makes the
body raise and the builder return `none`; an all-403 server exhausts the
retries and the fetch returns the empty string. -/
theorem c1_failure_isolation_witness :
    fetch_car_details "u" docBadPrice none = none
    ∧ (fetch_html (fun _ => Response.status 403 "x") 2 1).1 = "" := by
  constructor
  · exact c1_failure_isolation.1 "u" docBadPrice none "ValueError" rfl
  · exact c1_failure_isolation.2 (fun _ => Response.status 403 "x") 2 1 (fun _ => rfl)

/- ----------------------------------------------------------------
   C2
   ---------------------------------------------------------------- -/

/-- C2 counterexample: a 403 retry DOES count toward `maxRetries`.  With
403 on the first two requests, a 200 available on the third and
`maxRetries = 2`, the two blocked retries consume the whole budget and
the fetch returns empty — while the same server succeeds when one more
attempt is allowed.  Under the claim (403 retries outside the budget)
the first fetch would have succeeded. -/
theorem c2_counterexample :
    fetch_html (server403 2 "ok") 2 1 = ("", [Wait.blocked 5, Wait.blocked 5])
    ∧ (fetch_html (server403 2 "ok") 3 1).1 = "ok" := by
  constructor
  · decide
  · decide

/-- C2 amended: an attempt receiving 403 sleeps the flat 5-second cooldown
(longer than the default `baseDelay` of 1 second) and counts toward
`maxRetries` exactly like any other failed attempt: with `k` leading 403
responses and a 200 afterwards, the fetch succeeds iff `k < maxRetries`,
performing exactly `k` blocked cooldowns and no standard backoff waits;
with `maxRetries ≤ k` it returns empty after `maxRetries` blocked
cooldowns. -/
theorem c2_blocked_retries :
    (∀ (k retries delay : Nat) (body : String), k < retries →
        fetch_html (server403 k body) retries delay
          = (body, List.replicate k (Wait.blocked 5)))
    ∧ (∀ (k retries delay : Nat) (body : String), retries ≤ k →
        fetch_html (server403 k body) retries delay
          = ("", List.replicate retries (Wait.blocked 5))) := by
  constructor
  · intro k retries delay body h
    have hx := fetchAux_server403_hit k retries delay body retries 0 (by omega) (by omega)
    simpa [fetch_html] using hx
  · intro k retries delay body h
    have hx := fetchAux_server403_miss k retries delay body retries 0 (by omega)
    simpa [fetch_html] using hx

/-- Witness for C2: the spec's own concrete scenario — 403 twice, then 200,
`maxRetries = 3`: success with exactly two cooldown waits. -/
theorem c2_blocked_retries_witness :
    fetch_html (server403 2 "ok") 3 1 = ("ok", List.replicate 2 (Wait.blocked 5)) :=
  c2_blocked_retries.1 2 3 1 "ok" (by decide)

/- ----------------------------------------------------------------
   C3
   ---------------------------------------------------------------- -/

/-- C3 counterexample: a record built from an empty page carries absent
(`None`) values in `make`, `mileage_km` and `fuel_type` — `__post_init__`
never touches these fields — and the Schema Transformer observes them
(mapping them to empty strings), contradicting "no attribute of a
constructed record is ever observed absent". -/
theorem c3_counterexample :
    ∃ c, fetch_car_details "u" emptyDoc none = some c
      ∧ c.make = none
      ∧ c.mileage_km = none
      ∧ c.fuel_type = none
      ∧ (transform_car_to_schema c).make = ""
      ∧ (transform_car_to_schema c).mileage = "" := by
  exact ⟨_, rfl, rfl, rfl, rfl, rfl, rfl⟩

/-- C3 amended: every attribute the dataclass declares optional is resolved
to its documented default at construction — the string-typed ones to
"unknown", `engine_power` to 0, `new_used` to "used" — whatever the
required-typed fields hold; the required-typed fields `make`, `model`,
`fuel_type`, `mileage_km`, `engine_capacity` are passed through
unchanged and may stay absent. -/
theorem c3_optional_defaults (link fn desc : String) (yr pr : Nat)
    (mil cap fuel mk md : Option String) :
    mkCar
      { link := link, full_name := fn, description := desc, year := yr,
        mileage_km := mil, engine_capacity := cap, fuel_type := fuel,
        price_pln := pr, make := mk, model := md,
        door_count := none, vin := none, body_type := none, color := none,
        gearbox := none, engine_power := none, date_registration := none,
        transmission := none, price_indicator := none, price_range := none,
        no_accident := none, country_origin := none, new_used := none,
        registration_date_history := none }
      = { link := link, full_name := fn, description := desc, year := yr,
          mileage_km := mil, engine_capacity := cap, fuel_type := fuel,
          price_pln := pr, make := mk, model := md,
          door_count := "unknown", vin := "unknown", body_type := "unknown",
          color := "unknown", gearbox := "unknown", engine_power := 0,
          date_registration := "unknown", transmission := "unknown",
          price_indicator := "unknown", price_range := "unknown",
          no_accident := "unknown", country_origin := "unknown",
          new_used := "used", registration_date_history := "unknown" } := rfl

/- ----------------------------------------------------------------
   C4
   ---------------------------------------------------------------- -/

/-- C4 counterexample: the `vin` block exists and its last paragraph is
"ABC", yet the keyed lookup yields absent, because the block holds fewer
than two paragraph nodes — the claim predicts `some "ABC"`. -/
theorem c4_counterexample :
    findTestidBlock docOneP "vin" = some ["ABC"]
    ∧ ["ABC"].getLast? = some "ABC"
    ∧ extract_data_testid_value docOneP "vin" = none := by
  refine ⟨by decide, by decide, by decide⟩

/-- C4 amended: the keyed lookup returns the trimmed text of the last
paragraph node of the block identified by the key, but only when that
block holds at least two paragraph nodes; a missing block or a block
with fewer than two paragraphs yields absent. -/
theorem c4_keyed_lookup (doc : Doc) (key : String) :
    (findTestidBlock doc key = none → extract_data_testid_value doc key = none)
    ∧ (∀ ps, findTestidBlock doc key = some ps → ps.length < 2 →
        extract_data_testid_value doc key = none)
    ∧ (∀ ps p, findTestidBlock doc key = some ps → 2 ≤ ps.length →
        ps.getLast? = some p → extract_data_testid_value doc key = some (strTrim p)) := by
  refine ⟨?_, ?_, ?_⟩
  · intro h
    simp [extract_data_testid_value, h]
  · intro ps h hlen
    have hnot : ¬2 ≤ ps.length := by omega
    simp [extract_data_testid_value, h, hnot]
  · intro ps p h hlen hlast
    simp [extract_data_testid_value, h, hlen, hlast]

/-- Witness for C4 at a two-paragraph block: the value is the trimmed LAST
paragraph, not the first. -/
theorem c4_keyed_lookup_witness :
    extract_data_testid_value docTwoP "make" = some "BMW" := by
  have hx := (c4_keyed_lookup docTwoP "make").2.2 ["Marka", " BMW "] " BMW "
    (by decide) (by decide) (by decide)
  exact hx.trans (by decide)

/- ----------------------------------------------------------------
   C5
   ---------------------------------------------------------------- -/

/-- C5 counterexample: a present price element whose text holds no digit
makes line 148 raise (`int("")`) and the whole record is dropped — the
builder returns `none` — contradicting "the record is still produced
with the default 0". -/
theorem c5_counterexample :
    docBadPrice.priceText = some "cena PLN"
    ∧ digitsOf "cena PLN" = []
    ∧ fetch_car_details "u" docBadPrice none = none := by
  refine ⟨rfl, by decide, by decide⟩

/-- C5 amended: with the price element absent the record is produced and
carries price 0; `year` is 0 when its source text is absent or holds no
four consecutive digits; `engine_power` defaults to 0 through
`__post_init__` when both its sources fail; but a present price element
with digit-free text raises and drops the record; `mileage_km` and
`engine_capacity` are carried as raw strings, not numbers. -/
theorem c5_numeric_defaults :
    (∀ (url : String) (doc : Doc) (pwVin : Option String), doc.priceText = none →
        ∃ c, fetch_car_details url doc pwVin = some c
          ∧ c.price_pln = 0
          ∧ c.year = yearOf doc
          ∧ c.engine_power = (engPowerOf doc).getD 0)
    ∧ (∀ doc : Doc, yearTextOf doc = none → yearOf doc = 0)
    ∧ (∀ (doc : Doc) (t : String), yearTextOf doc = some t →
        firstFourDigits t.toList = none → yearOf doc = 0)
    ∧ (∀ (url : String) (doc : Doc) (pwVin : Option String) (t : String),
        doc.priceText = some t → digitsOf t = [] →
          fetch_car_details url doc pwVin = none) := by
  refine ⟨?_, ?_, ?_, ?_⟩
  · intro url doc pwVin h
    have hp : parsePricePln doc = Except.ok 0 := by simp [parsePricePln, h]
    refine ⟨carFields url doc pwVin 0, ?_, rfl, rfl, rfl⟩
    simp [fetch_car_details, buildCar, hp]
  · intro doc h
    simp [yearOf, h]
  · intro doc t h hf
    have hf2 : firstFourDigits t.data = none := hf
    by_cases he : t.isEmpty
    · simp [yearOf, h, he]
    · simp [yearOf, h, he, hf2]
  · intro url doc pwVin t h hd
    have hp : parsePricePln doc = Except.error "ValueError" := by
      simp [parsePricePln, h, hd]
    simp [fetch_car_details, buildCar, hp]

/-- Witness for C5: the empty page yields a record with price 0; the
digit-free price page yields no record. -/
theorem c5_numeric_defaults_witness :
    (∃ c, fetch_car_details "u" emptyDoc none = some c
        ∧ c.price_pln = 0
        ∧ c.year = yearOf emptyDoc
        ∧ c.engine_power = (engPowerOf emptyDoc).getD 0)
    ∧ fetch_car_details "v" docBadPrice none = none := by
  constructor
  · exact c5_numeric_defaults.1 "u" emptyDoc none rfl
  · exact c5_numeric_defaults.2.2.2 "v" docBadPrice none "cena PLN" rfl (by decide)

/- ----------------------------------------------------------------
   C8
   ---------------------------------------------------------------- -/

/-- C8 counterexample: at price 100000 the BELOW branch computes
`int(100000 * 1.15)` in binary64 arithmetic, which is 114999, not the
claimed 115000 (`100000 * 1.15` rounds to `114999.99999999999` and
`int` truncates). -/
theorem c8_counterexample :
    priceRangeOf "BELOW" 100000 = some "100000-114999 PLN"
    ∧ priceRangeOf "BELOW" 100000 ≠ some "100000-115000 PLN" := by
  constructor
  · decide
  · decide

/-- C8 amended: the estimator is a total function of (price, indicator);
at price 100000 it yields (90000, 110000) for IN and (85000, 100000) for
ABOVE as claimed, but (100000, 114999) for BELOW — the bounds are
binary64 products truncated by `int` — and absent for NONE or any other
unrecognised indicator. -/
theorem c8_price_estimator :
    priceRangeOf "IN" 100000 = some "90000-110000 PLN"
    ∧ priceRangeOf "ABOVE" 100000 = some "85000-100000 PLN"
    ∧ priceRangeOf "BELOW" 100000 = some "100000-114999 PLN"
    ∧ priceRangeOf "NONE" 100000 = none
    ∧ (∀ (ind : String) (price : Nat),
        ind ≠ "ABOVE" → ind ≠ "BELOW" → ind ≠ "IN" → priceRangeOf ind price = none) := by
  refine ⟨by decide, by decide, by decide, by decide, ?_⟩
  intro ind price h1 h2 h3
  simp [priceRangeOf, h1, h2, h3]

/-- Witness for C8: the general absent branch applied at a concrete
unrecognised indicator. -/
theorem c8_price_estimator_witness :
    priceRangeOf "XYZ" 5 = none :=
  c8_price_estimator.2.2.2.2 "XYZ" 5 (by decide) (by decide) (by decide)

/- ----------------------------------------------------------------
   C6
   ---------------------------------------------------------------- -/

lemma pyTruthy_some_of_ne (v : String) (hv : ¬v.isEmpty) : pyTruthy (some v) = true := by
  simp [pyTruthy]
  revert hv
  cases v.isEmpty <;> simp

/-- C6: VIN resolution precedence.  The stored VIN is the first nonempty
result, in order: the Playwright (interactive) extraction, the static
`advert-vin` block, the generic keyed lookup, the legacy table; in
particular a nonempty Playwright value wins outright, and the record
built by the Detail Record Builder stores it. -/
theorem c6_vin_precedence :
    (∀ (doc : Doc) (v : String), ¬v.isEmpty → resolveVin (some v) doc = some v)
    ∧ (∀ (doc : Doc) (pw : Option String) (p : String) (ps : List String),
        pyTruthy pw = false → doc.advertVinPs = some (p :: ps) →
          ¬(strTrim p).isEmpty → resolveVin pw doc = some (strTrim p))
    ∧ (∀ (doc : Doc) (pw : Option String) (k : String),
        pyTruthy (vinStep2 pw doc) = false →
          extract_data_testid_value doc "vin" = some k → ¬k.isEmpty →
            resolveVin pw doc = some k)
    ∧ (∀ (doc : Doc) (pw : Option String) (v : String),
        pyTruthy (vinStep3 (vinStep2 pw doc) doc) = false →
          legacyGet (legacyPairs doc.legacyItems) "vin" = some v → ¬v.isEmpty →
            resolveVin pw doc = some v)
    ∧ (∀ (url : String) (doc : Doc) (pw : Option String) (v : String) (c : Car),
        fetch_car_details url doc pw = some c → ¬v.isEmpty → pw = some v →
          c.vin = v) := by
  have hstep (w : Option String) (doc : Doc) (hw : pyTruthy w = true) :
      vinStep4 (vinStep3 w doc) doc = w := by
    simp [vinStep3, vinStep4, hw]
  refine ⟨?_, ?_, ?_, ?_, ?_⟩
  · intro doc v hv
    have ht := pyTruthy_some_of_ne v hv
    have h2 : vinStep2 (some v) doc = some v := by simp [vinStep2, ht]
    rw [resolveVin, h2, hstep _ doc ht]
  · intro doc pw p ps hpw hadv hp
    have h2 : vinStep2 pw doc = some (strTrim p) := by
      simp [vinStep2, hpw, hadv]
    have ht := pyTruthy_some_of_ne (strTrim p) hp
    rw [resolveVin, h2, hstep _ doc ht]
  · intro doc pw k h2 hk hkne
    have h3 : vinStep3 (vinStep2 pw doc) doc = some k := by
      simp [vinStep3, h2, hk]
    have ht := pyTruthy_some_of_ne k hkne
    rw [resolveVin, h3, vinStep4, ht]
    simp
  · intro doc pw v h3 hv hvne
    rw [resolveVin, vinStep4, h3, hv]
    simp [String.isEmpty] at hvne ⊢
    intro h
    exact absurd h hvne
  · intro url doc pw v c hc hv hpw
    have ht := pyTruthy_some_of_ne v hv
    have hres : resolveVin pw doc = some v := by
      subst hpw
      have h2 : vinStep2 (some v) doc = some v := by simp [vinStep2, ht]
      rw [resolveVin, h2, hstep _ doc ht]
    rcases hp : parsePricePln doc with e | price
    · rw [fetch_car_details, buildCar, hp] at hc
      exact absurd hc (by simp)
    · rw [fetch_car_details, buildCar, hp] at hc
      have hcar : carFields url doc pw price = c := by
        simpa using hc
      rw [← hcar]
      show (resolveVin pw doc).getD "unknown" = v
      rw [hres]
      rfl

/-- Witness for C6: the Playwright VIN wins over a present, different
static `advert-vin` value, both at the chain level and in the record the
builder produces. -/
theorem c6_vin_precedence_witness :
    resolveVin (some "PWVIN123") docAdvertVin = some "PWVIN123"
    ∧ (∃ c, fetch_car_details "u" docAdvertVin (some "PWVIN123") = some c
        ∧ c.vin = "PWVIN123") := by
  constructor
  · exact c6_vin_precedence.1 docAdvertVin "PWVIN123" (by decide)
  · refine ⟨_, rfl, ?_⟩
    exact c6_vin_precedence.2.2.2.2 "u" docAdvertVin (some "PWVIN123") "PWVIN123" _
      rfl (by decide) rfl

/- ----------------------------------------------------------------
   C7
   ---------------------------------------------------------------- -/

lemma chunks8Go_congr :
    ∀ (f1 f2 : Nat) (l : List α), l.length ≤ f1 → l.length ≤ f2 →
      chunks8Go f1 l = chunks8Go f2 l := by
  intro f1
  induction f1 with
  | zero =>
    intro f2 l h1 _
    have : l = [] := List.eq_nil_of_length_eq_zero (by omega)
    subst this
    cases f2 <;> rfl
  | succ n ih =>
    intro f2 l h1 h2
    cases l with
    | nil => cases f2 <;> rfl
    | cons x xs =>
      cases f2 with
      | zero => simp at h2
      | succ m =>
        simp only [chunks8Go]
        have hlen : (xs.drop 7).length ≤ n := by
          simp only [List.length_drop]
          simp only [List.length_cons] at h1
          omega
        have hlen2 : (xs.drop 7).length ≤ m := by
          simp only [List.length_drop]
          simp only [List.length_cons] at h2
          omega
        rw [ih m (xs.drop 7) hlen hlen2]

lemma chunks8_cons (x : α) (xs : List α) :
    chunks8 (x :: xs) = (x :: xs.take 7) :: chunks8 (xs.drop 7) := by
  simp only [chunks8, List.length_cons, chunks8Go]
  have h1 : (xs.drop 7).length ≤ xs.length := by
    simp [List.length_drop]
  rw [chunks8Go_congr xs.length (xs.drop 7).length (xs.drop 7) h1 le_rfl]

lemma chunks8_ne_nil (l : List α) (h : l ≠ []) : chunks8 l ≠ [] := by
  cases l with
  | nil => exact absurd rfl h
  | cons x xs => rw [chunks8_cons]; simp

lemma processChunksGo_fst (f : α → Option β) :
    ∀ (fuel : Nat) (l : List α), l.length ≤ fuel →
      (processChunksGo f fuel l).1 = l.filterMap f := by
  intro fuel
  induction fuel with
  | zero =>
    intro l h
    have : l = [] := List.eq_nil_of_length_eq_zero (by omega)
    subst this
    rfl
  | succ n ih =>
    intro l h
    cases l with
    | nil => rfl
    | cons x xs =>
      have hlen : (xs.drop 7).length ≤ n := by
        simp only [List.length_drop]
        simp only [List.length_cons] at h
        omega
      have hsplit : x :: xs = (x :: xs.take 7) ++ xs.drop 7 := by
        rw [List.cons_append, List.take_append_drop]
      simp only [processChunksGo, ih (xs.drop 7) hlen]
      conv_rhs => rw [hsplit]
      rw [List.filterMap_append]

lemma processChunksGo_snd (f : α → Option β) :
    ∀ (fuel : Nat) (l : List α), l.length ≤ fuel → l ≠ [] →
      (processChunksGo f fuel l).2 + 1 = (chunks8Go fuel l).length := by
  intro fuel
  induction fuel with
  | zero =>
    intro l h1 h2
    have : l = [] := List.eq_nil_of_length_eq_zero (by omega)
    exact absurd this h2
  | succ n ih =>
    intro l h1 h2
    cases l with
    | nil => exact absurd rfl h2
    | cons x xs =>
      have hlen : (xs.drop 7).length ≤ n := by
        simp only [List.length_drop]
        simp only [List.length_cons] at h1
        omega
      by_cases hr : xs.drop 7 = []
      · simp [processChunksGo, chunks8Go, hr]
      · have hrec := ih (xs.drop 7) hlen hr
        have hre : (xs.drop 7).isEmpty = false := by
          cases hx : xs.drop 7 with
          | nil => exact absurd hx hr
          | cons a t => rfl
        simp [processChunksGo, chunks8Go, hre]
        omega

/-- C7: batch scheduling shape.  The scheduler's output is exactly the
ordered filter of the per-link results (so an absent result for one link
never disturbs the others and failed results are discarded without
retry); it sleeps once between consecutive chunks and not after the
last; a 17-element link list is split into chunks of sizes 8, 8, 1; and
every link whose task succeeds contributes its record to the output,
whatever happens to the other links of its chunk. -/
theorem c7_batch_scheduler {α β : Type} :
    (∀ (f : α → Option β) (links : List α),
        (processChunks f links).1 = links.filterMap f)
    ∧ (∀ (f : α → Option β) (links : List α), links ≠ [] →
        (processChunks f links).2 + 1 = (chunks8 links).length)
    ∧ (∀ links : List α, links.length = 17 →
        (chunks8 links).map List.length = [8, 8, 1])
    ∧ (∀ (f : α → Option β) (links : List α) (l : α) (b : β),
        l ∈ links → f l = some b → b ∈ (processChunks f links).1) := by
  have hfst : ∀ (f : α → Option β) (links : List α),
      (processChunks f links).1 = links.filterMap f :=
    fun f links => processChunksGo_fst f links.length links le_rfl
  refine ⟨hfst, ?_, ?_, ?_⟩
  · intro f links hne
    exact processChunksGo_snd f links.length links le_rfl hne
  · intro links h
    obtain ⟨x, xs, rfl⟩ : ∃ x xs, links = x :: xs := by
      cases links with
      | nil => simp at h
      | cons a t => exact ⟨a, t, rfl⟩
    have hxs : xs.length = 16 := by simpa using h
    rw [chunks8_cons]
    have h7 : (xs.drop 7).length = 9 := by simp [hxs]
    obtain ⟨y, ys, hy⟩ : ∃ y ys, xs.drop 7 = y :: ys := by
      cases hdrop : xs.drop 7 with
      | nil => rw [hdrop] at h7; simp at h7
      | cons a t => exact ⟨a, t, rfl⟩
    rw [hy, chunks8_cons]
    have hys : ys.length = 8 := by
      rw [hy] at h7
      simpa using h7
    have h72 : (ys.drop 7).length = 1 := by simp [hys]
    obtain ⟨z, zs, hz⟩ : ∃ z zs, ys.drop 7 = z :: zs := by
      cases hdrop : ys.drop 7 with
      | nil => rw [hdrop] at h72; simp at h72
      | cons a t => exact ⟨a, t, rfl⟩
    rw [hz, chunks8_cons]
    have hzs : zs.length = 0 := by
      rw [hz] at h72
      simpa using h72
    have hzs0 : zs = [] := List.eq_nil_of_length_eq_zero hzs
    subst hzs0
    have htx : (xs.take 7).length = 7 := by
      rw [List.length_take]
      omega
    have hty : (ys.take 7).length = 7 := by
      rw [List.length_take]
      omega
    simp [chunks8, chunks8Go, htx, hty]
  · intro f links l b hl hf
    rw [hfst]
    exact List.mem_filterMap.mpr ⟨l, hl, hf⟩

/-- Witness for C7 on 17 concrete links with the task failing on the third
link only: the chunk sizes are 8, 8, 1, the sleeps are chunks minus one,
and the other links' results survive. -/
theorem c7_batch_scheduler_witness :
    ((chunks8 ["a1", "a2", "a3", "a4", "a5", "a6", "a7", "a8", "a9", "b1",
        "b2", "b3", "b4", "b5", "b6", "b7", "b8"]).map List.length = [8, 8, 1])
    ∧ ((processChunks (fun s => if s = "a3" then none else some s)
          ["a1", "a2", "a3", "a4", "a5", "a6", "a7", "a8", "a9", "b1",
           "b2", "b3", "b4", "b5", "b6", "b7", "b8"]).2 + 1
        = (chunks8 ["a1", "a2", "a3", "a4", "a5", "a6", "a7", "a8", "a9", "b1",
            "b2", "b3", "b4", "b5", "b6", "b7", "b8"]).length)
    ∧ "a4" ∈ (processChunks (fun s => if s = "a3" then none else some s)
          ["a1", "a2", "a3", "a4", "a5", "a6", "a7", "a8", "a9", "b1",
           "b2", "b3", "b4", "b5", "b6", "b7", "b8"]).1 := by
  refine ⟨?_, ?_, ?_⟩
  · exact (@c7_batch_scheduler String String).2.2.1 _ (by decide)
  · exact (@c7_batch_scheduler String String).2.1 _ _ (by decide)
  · exact (@c7_batch_scheduler String String).2.2.2 _ _ "a4" "a4" (by decide) (by decide)

/- ----------------------------------------------------------------
   C9
   ---------------------------------------------------------------- -/

/-- C9: the Schema Transformer lower-cases make, model and fuel_type,
lower-cases country_origin and defaults it to "pl" when it is absent
(empty), emits digit-only mileage and engine_capacity strings, encodes
no_accident as 1 iff the stored string case-insensitively equals "Tak"
(0 otherwise, including the absent sentinel), classifies new_used as
"new" iff case-insensitively "Nowy" and "used" otherwise, and leaves
antilock_brake_system, apple_carplay and metallic unset. -/
theorem c9_schema_transformer (car : Car) :
    ((transform_car_to_schema car).no_accident = 1 ↔ strLower car.no_accident = "tak")
    ∧ ((transform_car_to_schema car).new_used = "new" ↔ strLower car.new_used = "nowy")
    ∧ (∀ s, car.make = some s → ¬s.isEmpty →
        (transform_car_to_schema car).make = strLower s)
    ∧ (∀ s, car.model = some s → ¬s.isEmpty →
        (transform_car_to_schema car).model = strLower s)
    ∧ (∀ s, car.fuel_type = some s → ¬s.isEmpty →
        (transform_car_to_schema car).fuel_type = strLower s)
    ∧ (car.country_origin = "" → (transform_car_to_schema car).country_origin = "pl")
    ∧ (car.country_origin ≠ "" →
        (transform_car_to_schema car).country_origin = strLower car.country_origin)
    ∧ (transform_car_to_schema car).mileage.toList.all Char.isDigit = true
    ∧ (transform_car_to_schema car).engine_capacity.toList.all Char.isDigit = true
    ∧ (transform_car_to_schema car).antilock_brake_system = none
    ∧ (transform_car_to_schema car).apple_carplay = none
    ∧ (transform_car_to_schema car).metallic = none := by
  have hdigits : ∀ s : String, (String.mk (digitsOf s)).toList.all Char.isDigit = true := by
    intro s
    show (digitsOf s).all Char.isDigit = true
    simp only [digitsOf, List.all_eq_true]
    intro x hx
    exact (List.mem_filter.mp hx).2
  refine ⟨?_, ?_, ?_, ?_, ?_, ?_, ?_, ?_, ?_, rfl, rfl, rfl⟩
  · show (if car.no_accident ≠ "" ∧ strLower car.no_accident = "tak" then 1 else 0) = 1
      ↔ strLower car.no_accident = "tak"
    split_ifs with h
    · simp [h.2]
    · constructor
      · intro h01
        simp at h01
      · intro heq
        exfalso
        apply h
        refine ⟨?_, heq⟩
        intro h0
        rw [h0] at heq
        exact absurd heq (by decide)
  · show (if car.new_used ≠ "" ∧ strLower car.new_used = "nowy" then "new" else "used") = "new"
      ↔ strLower car.new_used = "nowy"
    split_ifs with h
    · simp [h.2]
    · constructor
      · intro h01
        exact absurd h01 (by decide)
      · intro heq
        exfalso
        apply h
        refine ⟨?_, heq⟩
        intro h0
        rw [h0] at heq
        exact absurd heq (by decide)
  · intro s hs hne
    have he : s.isEmpty = false := by
      revert hne
      cases s.isEmpty <;> simp
    show (match car.make with
          | some s => if s.isEmpty then "" else strLower s
          | none => "") = strLower s
    rw [hs]
    simp [he]
  · intro s hs hne
    have he : s.isEmpty = false := by
      revert hne
      cases s.isEmpty <;> simp
    show (match car.model with
          | some s => if s.isEmpty then "" else strLower s
          | none => "") = strLower s
    rw [hs]
    simp [he]
  · intro s hs hne
    have he : s.isEmpty = false := by
      revert hne
      cases s.isEmpty <;> simp
    show (match car.fuel_type with
          | some s => if s.isEmpty then "" else strLower s
          | none => "") = strLower s
    rw [hs]
    simp [he]
  · intro h0
    show (if car.country_origin.isEmpty then "pl" else strLower car.country_origin) = "pl"
    rw [h0]
    rfl
  · intro h0
    have he : car.country_origin.isEmpty = false := by
      rw [Bool.eq_false_iff]
      intro hx
      exact h0 ((String.isEmpty_iff car.country_origin).mp hx)
    show (if car.country_origin.isEmpty then "pl" else strLower car.country_origin)
        = strLower car.country_origin
    simp [he]
  · show (match car.mileage_km with
          | some s => if s.isEmpty then "" else String.mk (digitsOf s)
          | none => "").toList.all Char.isDigit = true
    rcases car.mileage_km with _ | s
    · rfl
    · by_cases he : s.isEmpty
      · simp [he]
      · simp only [he, if_false]
        exact hdigits s
  · show (match car.engine_capacity with
          | some s => if s.isEmpty then "" else String.mk (digitsOf s)
          | none => "").toList.all Char.isDigit = true
    rcases car.engine_capacity with _ | s
    · rfl
    · by_cases he : s.isEmpty
      · simp [he]
      · simp only [he, if_false]
        exact hdigits s

/-- A concrete record exercising the transformer. -/
def carSample : Car :=
  mkCar
    { link := "https://www.otomoto.pl/oferta/x", full_name := "BMW 320d",
      description := "opis", year := 2019,
      mileage_km := some "125 000 km", engine_capacity := some "1 995 cm3",
      fuel_type := some "Diesel", price_pln := 95000,
      make := some "BMW", model := some "Seria 3",
      door_count := some "5", vin := some "WBA12345",
      body_type := some "Sedan", color := some "Czarny",
      gearbox := some "Automatyczna", engine_power := some 190,
      date_registration := none, transmission := none,
      price_indicator := none, price_range := none,
      no_accident := some "Tak", country_origin := some "Polska",
      new_used := some "Nowy", registration_date_history := none }

/-- Witness for C9 on a concrete record: affirmative no_accident maps to
1, "Nowy" maps to "new", make is lower-cased, a nonempty country is
lower-cased. -/
theorem c9_schema_transformer_witness :
    (transform_car_to_schema carSample).no_accident = 1
    ∧ (transform_car_to_schema carSample).new_used = "new"
    ∧ (transform_car_to_schema carSample).make = "bmw"
    ∧ (transform_car_to_schema carSample).country_origin = "polska" := by
  refine ⟨?_, ?_, ?_, ?_⟩
  · exact (c9_schema_transformer carSample).1.mpr (by decide)
  · exact (c9_schema_transformer carSample).2.1.mpr (by decide)
  · exact ((c9_schema_transformer carSample).2.2.1 "BMW" rfl (by decide)).trans (by decide)
  · exact ((c9_schema_transformer carSample).2.2.2.2.2.2.1 (by decide)).trans (by decide)

/- ----------------------------------------------------------------
   C10
   ---------------------------------------------------------------- -/

lemma attemptBody_exits (o : PwOracle) :
    (∃ r, attemptBody o = exitClosed r) ∨ attemptBody o = exitRaisedOpen
      ∨ attemptBody o = exitRaisedUnopened := by
  obtain ⟨l, g, dc, dt, bc, ec, ws, ac, at1⟩ := o
  cases l <;> cases g <;> cases dc <;> cases dt <;> cases bc <;> cases ec <;> cases ws <;>
    cases ac <;> cases at1 <;>
    (dsimp only [attemptBody]
     first
       | exact Or.inl ⟨_, rfl⟩
       | exact Or.inr (Or.inl rfl)
       | exact Or.inr (Or.inr rfl)
       | (split_ifs <;>
           first
             | exact Or.inl ⟨_, rfl⟩
             | exact Or.inr (Or.inl rfl)
             | exact Or.inr (Or.inr rfl)))

lemma foldl_openStep_stop (init : Nat) (l : List PwEvent) :
    List.foldl openStep init (l ++ [PwEvent.stopPlaywright]) = 0 := by
  rw [List.foldl_append]
  rfl

/-- C10: session release.  After every attempt of the interactive VIN
extractor — whatever each awaited step does — no browsing session stays
open: the scope exit of the attempt tears the session down on every
path; on every normal completion the explicit `browser.close()` is the
last lifecycle event before the scope exit; and across the whole
retried extraction no session survives either. -/
theorem c10_session_release :
    (∀ o : PwOracle, openAfter (runAttempt o).2 = 0)
    ∧ (∀ (o : PwOracle) (r : Option String), (attemptBody o).1 = Except.ok r →
        (attemptBody o).2.getLast? = some PwEvent.closeBrowser)
    ∧ (∀ o1 o2 o3 : PwOracle, openAfter (extract_vin_with_playwright o1 o2 o3).2 = 0) := by
  have h1 : ∀ o : PwOracle, openAfter (runAttempt o).2 = 0 := by
    intro o
    exact foldl_openStep_stop 0 (attemptBody o).2
  refine ⟨h1, ?_, ?_⟩
  · intro o r h
    rcases attemptBody_exits o with ⟨r2, he⟩ | he | he
    · rw [he]
      rfl
    · rw [he] at h
      exact absurd h (by simp [exitRaisedOpen])
    · rw [he] at h
      exact absurd h (by simp [exitRaisedUnopened])
  · intro o1 o2 o3
    rcases h1a : runAttempt o1 with ⟨r1, e1⟩
    have he1 : e1 = (attemptBody o1).2 ++ [PwEvent.stopPlaywright] := by
      have hx := congrArg Prod.snd h1a
      simp [runAttempt] at hx
      exact hx.symm
    cases r1 with
    | ok r =>
      simp only [extract_vin_with_playwright, h1a]
      rw [he1]
      exact foldl_openStep_stop 0 _
    | error err =>
      rcases h2a : runAttempt o2 with ⟨r2, e2⟩
      have he2 : e2 = (attemptBody o2).2 ++ [PwEvent.stopPlaywright] := by
        have hx := congrArg Prod.snd h2a
        simp [runAttempt] at hx
        exact hx.symm
      cases r2 with
      | ok r =>
        simp only [extract_vin_with_playwright, h1a, h2a]
        rw [he2]
        show List.foldl openStep 0 _ = 0
        rw [List.foldl_append]
        exact foldl_openStep_stop _ _
      | error err2 =>
        rcases h3a : runAttempt o3 with ⟨r3, e3⟩
        have he3 : e3 = (attemptBody o3).2 ++ [PwEvent.stopPlaywright] := by
          have hx := congrArg Prod.snd h3a
          simp [runAttempt] at hx
          exact hx.symm
        cases r3 with
        | ok r =>
          simp only [extract_vin_with_playwright, h1a, h2a, h3a]
          rw [he3]
          show List.foldl openStep 0 _ = 0
          rw [List.foldl_append, List.foldl_append]
          exact foldl_openStep_stop _ _
        | error err3 =>
          simp only [extract_vin_with_playwright, h1a, h2a, h3a]
          rw [he3]
          show List.foldl openStep 0 _ = 0
          rw [List.foldl_append, List.foldl_append]
          exact foldl_openStep_stop _ _

/-- An attempt whose steps all succeed, with the VIN directly visible. -/
def oracleOk : PwOracle :=
  { launch := StepResult.ok (), goto := StepResult.ok (),
    directCount := StepResult.ok 1, directText := StepResult.ok " WVWZZZ123 ",
    buttonCount := StepResult.ok 0, evalClick := StepResult.ok (),
    waitSel := StepResult.ok (), afterCount := StepResult.ok 0,
    afterText := StepResult.ok "" }

/-- Witness for C10 on an all-success attempt: zero sessions remain after
one attempt and after the whole extraction, and the successful body's
last event is the explicit browser close. -/
theorem c10_session_release_witness :
    openAfter (runAttempt oracleOk).2 = 0
    ∧ (attemptBody oracleOk).2.getLast? = some PwEvent.closeBrowser
    ∧ openAfter (extract_vin_with_playwright oracleOk oracleOk oracleOk).2 = 0 := by
  refine ⟨c10_session_release.1 oracleOk, ?_,
    c10_session_release.2.2 oracleOk oracleOk oracleOk⟩
  exact c10_session_release.2.1 oracleOk (some (strTrim " WVWZZZ123 ")) rfl
